import Mathlib

/-!
# Verification of the Barlina backend's order / return core

Shallow embedding of the inventory reservation, order-creation,
order-status, return-eligibility, return-request and approval-gate logic
of the Barlina backend (`controllers/orderController.js`, the return
controller, `controllers/adminChatController.js`), together with proofs
of the specified properties.

Conventions of the embedding:
* Mongo documents become Lean structures; a products collection is an
  association list from product id to product document.
* JS numbers that hold quantities, stock counts and millisecond
  timestamps become `Int` (stock may in principle go negative, so
  non-negativity is a theorem, not a typing artifact).
* `findOneAndUpdate` with a `countInStock: { $gte: qty }` filter and a
  `$inc` update is one conditional atomic step, exactly as in Mongo.
* Absent / `undefined` fields become `Option`; JS truthiness of a
  number is `≠ 0`, of an object `Option.isSome`.
* Fire-and-forget side effects (audit logs, e-mails, financial
  records) are tracked as event lists / counters in the result state.
-/

namespace Barlina

/-! ## Products and the stock database -/

/-- `returnPolicy` subdocument of a Product (`models/Product` schema):
both fields may be absent on legacy documents. -/
structure ReturnPolicy where
  isReturnable : Option Bool
  returnWindowDays : Option Int
deriving DecidableEq, Repr

/-- The slice of a Product document that the order/return core reads. -/
structure Product where
  countInStock : Int
  isStockEnabled : Bool
  returnPolicy : Option ReturnPolicy
deriving DecidableEq, Repr

abbrev ProductId := Nat

/-- The products collection: an association list keyed by product id. -/
abbrev StockDb := List (ProductId × Product)

/-- `Product.findById`: first entry with the given id. -/
def getProduct (db : StockDb) (pid : ProductId) : Option Product :=
  (db.find? (fun e => e.1 = pid)).map (·.2)

/-- Current stock counter of a product, if the product exists. -/
def getStock (db : StockDb) (pid : ProductId) : Option Int :=
  (getProduct db pid).map (·.countInStock)

/-- `Product.findByIdAndUpdate(pid, { $inc: { countInStock: q } })`:
an unconditional atomic increment; a no-op when the id is absent
(no upsert). -/
def incStock (db : StockDb) (pid : ProductId) (q : Int) : StockDb :=
  db.map (fun e =>
    if e.1 = pid then (e.1, { e.2 with countInStock := e.2.countInStock + q }) else e)

/-- `Product.findOneAndUpdate({ _id: pid, countInStock: { $gte: qty } },
{ $inc: { countInStock: -qty } })`: one conditional atomic
check-and-decrement; `none` when no document matches the filter. -/
def condDecStock (db : StockDb) (pid : ProductId) (qty : Int) : Option StockDb :=
  match getProduct db pid with
  | none => none
  | some p => if qty ≤ p.countInStock then some (incStock db pid (-qty)) else none

/-- One line of an order's `orderItems` as used at creation time. -/
structure OrderItem where
  product : ProductId
  name : String
  qty : Int
deriving DecidableEq, Repr

/-! ## Order creation (`addOrderItems`) -/

/-- Errors thrown by `addOrderItems`. -/
inductive CreateError where
  | noOrderItems
  | productNotFound (name : String)
  | insufficientStock (name : String)
  | saveFailed
deriving DecidableEq, Repr

/-- The per-line reservation of `addOrderItems`: for each item, look up
the product (`404` if absent), then — unless `isStockEnabled === false` —
atomically decrement the stock if sufficient (`400` otherwise), recording
each successful deduction in `reserved` for a potential rollback.
Returns the outcome together with the database and the deductions made
up to the stopping point. -/
def reserveItems : StockDb → List (ProductId × Int) → List OrderItem →
    Except CreateError Unit × StockDb × List (ProductId × Int)
  | db, reserved, [] => (.ok (), db, reserved)
  | db, reserved, item :: rest =>
    match getProduct db item.product with
    | none => (.error (.productNotFound item.name), db, reserved)
    | some p =>
      -- `shouldEnforceStock = product.isStockEnabled !== false`
      if p.isStockEnabled then
        match condDecStock db item.product item.qty with
        | some db' => reserveItems db' ((item.product, item.qty) :: reserved) rest
        | none => (.error (.insufficientStock item.name), db, reserved)
      else reserveItems db reserved rest

/-- The rollback loop of `addOrderItems`' catch block: refund every
recorded deduction with an unconditional `$inc`. -/
def rollback (db : StockDb) (reserved : List (ProductId × Int)) : StockDb :=
  reserved.foldl (fun d e => incStock d e.1 e.2) db

/-- `addOrderItems`: reject an empty item list; otherwise reserve each
line, and on any failure (reservation or `order.save()`) roll the
deductions back and rethrow.  The third component is the list of order
documents persisted by the call (`order.save()`), empty on failure;
`saveOk` models whether the save succeeds. -/
def addOrderItems (saveOk : Bool) (items : List OrderItem) (db : StockDb) :
    Except CreateError Unit × StockDb × List (List OrderItem) :=
  if items.length = 0 then (.error .noOrderItems, db, [])
  else
    match reserveItems db [] items with
    | (.error e, db1, reserved) => (.error e, rollback db1 reserved, [])
    | (.ok _, db1, reserved) =>
      if saveOk then (.ok (), db1, [items])
      else (.error .saveFailed, rollback db1 reserved, [])

/-! ## The reservation step in isolation (InventoryLedger.reserve) -/

/-- The loop body of `addOrderItems` for one line, product already known
to exist: skip the counter entirely when `isStockEnabled === false`,
otherwise perform the single conditional atomic decrement.  `none`
models the insufficient-stock failure. -/
def reserveLine (db : StockDb) (pid : ProductId) (qty : Int) : Option StockDb :=
  match getProduct db pid with
  | none => none
  | some p => if p.isStockEnabled then condDecStock db pid qty else some db

/-- Every product document in the collection has a non-negative stock
counter. -/
def nonNegStock (db : StockDb) : Prop := ∀ e ∈ db, 0 ≤ e.2.countInStock

instance (db : StockDb) : Decidable (nonNegStock db) :=
  inferInstanceAs (Decidable (∀ e ∈ db, 0 ≤ e.2.countInStock))

/-- A serialization of concurrent reservation attempts: each attempt is
one atomic `reserveLine` step, failed attempts leave the database
unchanged. -/
def applyReserves (db : StockDb) : List (ProductId × Int) → StockDb
  | [] => db
  | (pid, qty) :: rest =>
    match reserveLine db pid qty with
    | some db' => applyReserves db' rest
    | none => applyReserves db rest

/-! ## Return eligibility (ReturnEngine) -/

/-- The `returnStatus` enum of an order line / ReturnRequest. -/
inductive RetStatus where
  | NONE
  | REQUESTED
  | APPROVED
  | REJECTED
  | PICKUP_SCHEDULED
  | PICKED_UP
  | REFUNDED
  | REPLACED
  | COMPLETED
deriving DecidableEq, Repr

/-- `status.toLowerCase()` on the enum strings. -/
def RetStatus.lower : RetStatus → String
  | .NONE => "none"
  | .REQUESTED => "requested"
  | .APPROVED => "approved"
  | .REJECTED => "rejected"
  | .PICKUP_SCHEDULED => "pickup_scheduled"
  | .PICKED_UP => "picked_up"
  | .REFUNDED => "refunded"
  | .REPLACED => "replaced"
  | .COMPLETED => "completed"

/-- `24 * 60 * 60 * 1000` milliseconds in a day. -/
def dayMs : Int := 86400000

/-- `(product.returnPolicy || {})`. -/
def Product.effPolicy (p : Product) : ReturnPolicy := p.returnPolicy.getD ⟨none, none⟩

/-- `returnPolicy.isReturnable !== undefined ? returnPolicy.isReturnable : true`. -/
def Product.effReturnable (p : Product) : Bool := p.effPolicy.isReturnable.getD true

/-- `returnPolicy.returnWindowDays !== undefined ? returnPolicy.returnWindowDays : 7`. -/
def Product.effWindowDays (p : Product) : Int := p.effPolicy.returnWindowDays.getD 7

/-- The data the per-line body of `getReturnEligibility` (and the inline
re-validation of `requestReturn`) reads: the settings document
(`Setting.findOne()` may find none; otherwise its `areReturnsActive`),
the order's delivery flag and timestamp (a Date is truthy in JS exactly
when present; milliseconds since epoch), the product document (absent
when deleted), the line's `returnStatus` (absent on legacy documents)
and the current clock. -/
structure LineCtx where
  settingsDoc : Option Bool
  isDelivered : Bool
  deliveredAt : Option Int
  product : Option Product
  returnStatus : Option RetStatus
  now : Int
deriving DecidableEq, Repr

/-- Semantic pass/fail of the five eligibility conditions, used to state
theorems about the reason lists.  `passWindow` is vacuously true when
the delivery timestamp or the product is absent, because the source
guards the window check with `if (order.deliveredAt && product)`. -/
def passGlobal (c : LineCtx) : Bool := c.settingsDoc.getD true

def passDelivered (c : LineCtx) : Bool := c.isDelivered && c.deliveredAt.isSome

def passReturnable (c : LineCtx) : Bool :=
  c.product.isSome && (match c.product with
    | some p => p.effReturnable
    | none => true)

def passWindow (c : LineCtx) : Bool :=
  match c.deliveredAt, c.product with
  | some t, some p => decide (c.now ≤ t + p.effWindowDays * dayMs)
  | _, _ => true

def passNoActive (c : LineCtx) : Bool :=
  c.returnStatus.getD .NONE = RetStatus.NONE ∨ c.returnStatus.getD .NONE = RetStatus.REJECTED

/-- The loop body of `getReturnEligibility` for one line item: starts
from `isEligible = true, reasons = []` and runs the five checks in
source order, each failed check clearing the flag and appending its
human-readable reason.  Date formatting (`toLocaleDateString`) is
abstracted to the expiry timestamp in milliseconds. -/
def returnEligibility (c : LineCtx) : Bool × List String :=
  let globalReturnsActive := c.settingsDoc.getD true
  let s0 : Bool × List String := (true, [])
  -- 0. Global Setting Check
  let s1 := if globalReturnsActive then s0
    else (false, s0.2 ++ ["Returns are currently disabled for the store."])
  -- 1. Must be delivered: `!order.isDelivered || !order.deliveredAt`
  let s2 := if c.isDelivered && c.deliveredAt.isSome then s1
    else (false, s1.2 ++ ["Item is not yet delivered."])
  -- 2. Product must exist and be returnable
  let policy := match c.product with
    | some p => p.effPolicy
    | none => (⟨none, none⟩ : ReturnPolicy)
  let isReturnable := policy.isReturnable.getD true
  let s3 := if c.product.isSome && isReturnable then s2
    else (false, s2.2 ++ ["This item is marked as non-returnable."])
  -- 3. Check return window: `if (order.deliveredAt && product)`
  let s4 := match c.deliveredAt, c.product with
    | some t, some _ =>
      let days := policy.returnWindowDays.getD 7
      if c.now > t + days * dayMs then
        (false, s3.2 ++ ["Return window expired on " ++ toString (t + days * dayMs) ++ "."])
      else s3
    | _, _ => s3
  -- 4. Check for existing active return: `item.returnStatus || 'NONE'`
  let cur := c.returnStatus.getD .NONE
  if cur = RetStatus.NONE ∨ cur = RetStatus.REJECTED then s4
  else (false, s4.2 ++ ["Return already " ++ cur.lower ++ "."])

/-- The failures of `requestReturn`'s inline "Strict Eligibility Check
(Copy of Logic)", in source order. -/
inductive ReqFail where
  | storeDisabled
  | notDelivered
  | nullProductCrash
  | notReturnable
  | windowExpired
  | activeReturn
deriving DecidableEq, Repr

/-- The message of the `Error` thrown for each failure
(`nullProductCrash` is the `TypeError` thrown by reading `returnPolicy`
of `null` when the product no longer exists). -/
def ReqFail.message : ReqFail → String
  | .storeDisabled => "Returns are currently disabled for the store."
  | .notDelivered => "Order not delivered yet."
  | .nullProductCrash => "TypeError: Cannot read properties of null (reading returnPolicy)"
  | .notReturnable => "Item is not returnable."
  | .windowExpired => "Return window expired."
  | .activeReturn => "Active return request already exists."

/-- The write-time validation sequence of `requestReturn`: global
settings check (`if (settings && !settings.areReturnsActive)`), then
the strict eligibility re-check.  The window test compares
`Date.now() > new Date(order.deliveredAt).getTime() + windowMs`; when
`deliveredAt` is `undefined` the right-hand side is `NaN` and the
comparison is `false`, so the check never fires. -/
def requestReturnValidate (c : LineCtx) : Except ReqFail Unit :=
  if c.settingsDoc.isSome && !(c.settingsDoc.getD true) then .error .storeDisabled
  else if !c.isDelivered then .error .notDelivered
  else match c.product with
  | none => .error .nullProductCrash
  | some p =>
    if !p.effReturnable then .error .notReturnable
    else
      let expired : Bool := match c.deliveredAt with
        | some t => decide (c.now > t + p.effWindowDays * dayMs)
        | none => false
      if expired then .error .windowExpired
      else if c.returnStatus.getD .NONE = RetStatus.NONE ∨
          c.returnStatus.getD .NONE = RetStatus.REJECTED then .ok ()
      else .error .activeReturn

/-! ## Return status transitions and the approval gate -/

/-- The request body of `updateReturnStatus`
(`{ status, adminNote, refundAmount, restoreInventory }`), also the
`requestData` stored verbatim in an ApprovalRequest. -/
structure Payload where
  status : RetStatus
  adminNote : Option String
  refundAmount : Option Int
  restoreInventory : Bool
deriving DecidableEq, Repr

/-- JS truthiness of a number field (`if (refundAmount) ...`): absent
and `0` are falsy. -/
def truthyNum : Option Int → Bool
  | none => false
  | some n => n != 0

/-- The slice of a ReturnRequest document the transition writes.
History entries are (status, note) pairs; timestamps and actor ids are
abstracted away. -/
structure ReturnReqDoc where
  status : RetStatus
  adminNote : Option String
  refundAmount : Option Int
  history : List (RetStatus × Option String)
deriving DecidableEq, Repr

/-- The state touched by a return-status transition, for a return whose
order, matching line item and product are all found: the ReturnRequest,
the order line's `returnStatus` mirror, the product's stock counter and
the line quantity, the append-only audit action tags, and counters for
REFUND FinancialRecords created and approval e-mails sent. -/
structure RetState where
  req : ReturnReqDoc
  itemStatus : RetStatus
  stock : Int
  qty : Int
  audits : List String
  finRecords : Nat
  emails : Nat
deriving DecidableEq, Repr

/-- The `RETURN_${status}` audit action tag. -/
def RetStatus.tag : RetStatus → String
  | .NONE => "RETURN_NONE"
  | .REQUESTED => "RETURN_REQUESTED"
  | .APPROVED => "RETURN_APPROVED"
  | .REJECTED => "RETURN_REJECTED"
  | .PICKUP_SCHEDULED => "RETURN_PICKUP_SCHEDULED"
  | .PICKED_UP => "RETURN_PICKED_UP"
  | .REFUNDED => "RETURN_REFUNDED"
  | .REPLACED => "RETURN_REPLACED"
  | .COMPLETED => "RETURN_COMPLETED"

/-- The direct (super-admin) mutation path of `updateReturnStatus`:
update the request (status, adminNote unconditionally, refundAmount if
truthy, push a history entry), mirror the status onto the order line,
restore inventory (with its dedicated audit event) when requested and
the status is REFUNDED/REPLACED/APPROVED, log the status change, create
a REFUND FinancialRecord when the status is REFUNDED, and send the
customer e-mail when the status is APPROVED. -/
def updateReturnStatusDirect (p : Payload) (s : RetState) : RetState :=
  let req1 : ReturnReqDoc :=
    { status := p.status
      adminNote := p.adminNote
      refundAmount := if truthyNum p.refundAmount then p.refundAmount else s.req.refundAmount
      history := s.req.history ++ [(p.status, none)] }
  let restock := p.restoreInventory = true ∧
    (p.status = RetStatus.REFUNDED ∨ p.status = RetStatus.REPLACED ∨
     p.status = RetStatus.APPROVED)
  let stock1 := if restock then s.stock + s.qty else s.stock
  let audits1 := if restock then s.audits ++ ["INVENTORY_RESTORED"] else s.audits
  let audits2 := audits1 ++ [p.status.tag]
  let fin1 := if p.status = RetStatus.REFUNDED then s.finRecords + 1 else s.finRecords
  let em1 := if p.status = RetStatus.APPROVED then s.emails + 1 else s.emails
  { req := req1, itemStatus := p.status, stock := stock1, qty := s.qty,
    audits := audits2, finRecords := fin1, emails := em1 }

/-- The `APPROVE_RETURN` branch of `approveRequest`
(`adminChatController`): re-reads the stored payload and replays the
transition — same request update (its history entry carries the
resolution note), same order-line mirror, same inventory restoration
and audit actions — but it creates no FinancialRecord and sends no
e-mail. -/
def approveReturnReplay (p : Payload) (s : RetState) : RetState :=
  let req1 : ReturnReqDoc :=
    { status := p.status
      adminNote := p.adminNote
      refundAmount := if truthyNum p.refundAmount then p.refundAmount else s.req.refundAmount
      history := s.req.history ++
        [(p.status, some "Approved by Super Admin via Request System")] }
  let restock := p.restoreInventory = true ∧
    (p.status = RetStatus.REFUNDED ∨ p.status = RetStatus.REPLACED ∨
     p.status = RetStatus.APPROVED)
  let stock1 := if restock then s.stock + s.qty else s.stock
  let audits1 := if restock then s.audits ++ ["INVENTORY_RESTORED"] else s.audits
  let audits2 := audits1 ++ [p.status.tag]
  { req := req1, itemStatus := p.status, stock := stock1, qty := s.qty,
    audits := audits2, finRecords := s.finRecords, emails := s.emails }

/-- The statuses intercepted by the approval workflow for callers whose
role is not `super_admin`. -/
def gatedStatuses : List RetStatus :=
  [.APPROVED, .REFUNDED, .REJECTED, .REPLACED, .COMPLETED]

/-- HTTP-level outcome of `updateReturnStatus`. -/
inductive UpdOutcome where
  | conflict
  | accepted
  | mutated
deriving DecidableEq, Repr

/-- The entry point of `updateReturnStatus`: a non-`super_admin` caller
requesting one of the five gated statuses is intercepted — 400 Conflict
if a PENDING `APPROVE_RETURN` ApprovalRequest already exists for this
return, otherwise a new PENDING ApprovalRequest carrying the payload
verbatim is persisted and 202 returned, the ReturnRequest untouched.
Every other combination runs the direct mutation.  Returns the outcome,
the state afterwards, and the list of approval payloads persisted. -/
def updateReturnStatus (role : String) (p : Payload) (pendingExists : Bool)
    (s : RetState) : UpdOutcome × RetState × List Payload :=
  if role ≠ "super_admin" ∧ p.status ∈ gatedStatuses then
    if pendingExists then (.conflict, s, [])
    else (.accepted, s, [p])
  else (.mutated, updateReturnStatusDirect p s, [])

/-! ## Order status transitions (OrderEngine) -/

/-- The order `status` enum. -/
inductive OStatus where
  | CREATED
  | PAID
  | PAYMENT_FAILED
  | READY_TO_SHIP
  | SHIPPED
  | OUT_FOR_DELIVERY
  | DELIVERED
  | CANCELLED
  | RETURNED
  | REFUNDED
deriving DecidableEq, Repr

/-- The slice of an Order document that the status paths write.
`cancellationRefundAmount` is the `cancellation.refundAmount` schema
field. -/
structure OrderDoc where
  status : OStatus
  isPaid : Bool
  paidAt : Option Int
  isDelivered : Bool
  deliveredAt : Option Int
  isCancelled : Bool
  cancelledAt : Option Int
  cancellationRefundAmount : Option Int
  items : List OrderItem
deriving DecidableEq, Repr

/-- `updateOrderToPaid` (order found; payment result, invoice e-mail
and response body out of scope): reject an already-paid order with 400,
otherwise set the legacy flag, status and timestamp and log
PAYMENT_RECEIVED. -/
def updateOrderToPaid (now : Int) (o : OrderDoc) :
    Except String (OrderDoc × List String) :=
  if o.isPaid then .error "Order is already marked as paid"
  else .ok ({ o with isPaid := true, status := .PAID, paidAt := some now },
    ["PAYMENT_RECEIVED"])

/-- `updateOrderToDelivered` (order found; delivery e-mail out of
scope): unconditionally set the flag, status and a fresh timestamp and
log STATUS_UPDATE — there is no already-delivered check. -/
def updateOrderToDelivered (now : Int) (o : OrderDoc) :
    Except String (OrderDoc × List String) :=
  .ok ({ o with isDelivered := true, status := .DELIVERED, deliveredAt := some now },
    ["STATUS_UPDATE"])

/-- `cancelOrder` (order found; cancellation e-mail out of scope):
reject delivered or already-cancelled orders, otherwise set the flag,
status and timestamp, log ORDER_CANCELLED (the free-text reason goes
into the audit note), and restore every line's stock with unconditional
increments (missing products are skipped, which `incStock` models). -/
def cancelOrder (now : Int) (o : OrderDoc) (db : StockDb) :
    Except String (OrderDoc × StockDb × List String) :=
  if o.isDelivered then
    .error "Cannot cancel an order that has been shipped or delivered"
  else if o.isCancelled then .error "Order is already cancelled"
  else
    .ok ({ o with isCancelled := true, status := .CANCELLED, cancelledAt := some now },
      rollback db (o.items.map fun it => (it.product, it.qty)),
      ["ORDER_CANCELLED"])

/-- The admin `updateOrderStatus` path, restricted to the parts that
touch the status, legacy flags and stock (the courier block, the
out-for-delivery e-mail and the RETURNED auto-return synthesis touch
neither; the status argument is always one of the enum values, which is
exactly what the `allowedStatuses` check admits).  Note: it neither
checks `isDelivered` before CANCELLED nor releases any stock. -/
def updateOrderStatusAdmin (now : Int) (newStatus : OStatus) (o : OrderDoc)
    (db : StockDb) : OrderDoc × StockDb × List String :=
  let o1 := { o with status := newStatus }
  let o2 := if newStatus = OStatus.PAID then
      { o1 with
        isPaid := true
        paidAt := if o1.paidAt.isSome then o1.paidAt else some now }
    else o1
  let o3 := if newStatus = OStatus.DELIVERED then
      { o2 with
        isDelivered := true
        deliveredAt := if o2.deliveredAt.isSome then o2.deliveredAt else some now }
    else o2
  let o4 := if newStatus = OStatus.CANCELLED then
      { o3 with
        isCancelled := true
        cancelledAt := if o3.cancelledAt.isSome then o3.cancelledAt else some now }
    else o3
  (o4, db, ["STATUS_UPDATE"])

/-- Per-product total quantity of a reservation/restock list. -/
def pendingQty (l : List (ProductId × Int)) (pid : ProductId) : Int :=
  ((l.filter (fun e => e.1 = pid)).map (·.2)).sum

/-! ## Concrete fixtures used to instantiate the theorems -/

/-- A two-product collection: product 1 with stock 5, product 2 with
stock 1, both stock-enforced. -/
def demoDb : StockDb := [(1, ⟨5, true, none⟩), (2, ⟨1, true, none⟩)]

/-- A checkout of 3 units of product 1 and 2 units of product 2 (the
second line exceeds the available stock). -/
def demoItems : List OrderItem := [⟨1, "Shirt", 3⟩, ⟨2, "Hat", 2⟩]

/-- A product with no explicit return policy (all defaults). -/
def defProduct : Product := ⟨0, true, none⟩

/-- Delivered at epoch 0, checked exactly at the default 7-day boundary. -/
def boundaryCtx : LineCtx := ⟨some true, true, some 0, some defProduct, some .NONE, 7 * dayMs⟩

/-- An undelivered order line: exactly one eligibility condition fails. -/
def undeliveredCtx : LineCtx := ⟨none, false, none, some defProduct, some .NONE, 0⟩

/-- Delivered flag set but `deliveredAt` missing, long after any
conceivable window. -/
def noTimestampCtx : LineCtx := ⟨none, true, none, some defProduct, some .NONE, 99999999999999⟩

/-- A return in PICKUP_SCHEDULED state whose line mirrors it, product
stock 3, line quantity 1, no side effects recorded yet. -/
def retState0 : RetState :=
  { req := { status := .PICKUP_SCHEDULED, adminNote := none, refundAmount := some 0,
             history := [(.REQUESTED, none)] },
    itemStatus := .PICKUP_SCHEDULED, stock := 3, qty := 1,
    audits := [], finRecords := 0, emails := 0 }

/-- A transition into PICKED_UP — not one of the gated statuses. -/
def pickedUpPayload : Payload := ⟨.PICKED_UP, none, none, false⟩

/-- A refund transition with inventory restoration. -/
def refundPayload : Payload := ⟨.REFUNDED, some "ok", some 100, true⟩

/-- A paid, delivered order over the demo items. -/
def deliveredOrder : OrderDoc :=
  { status := .DELIVERED, isPaid := true, paidAt := some 1, isDelivered := true,
    deliveredAt := some 5, isCancelled := false, cancelledAt := none,
    cancellationRefundAmount := none, items := demoItems }

/-- A paid, undelivered order over the demo items. -/
def paidOrder : OrderDoc :=
  { status := .PAID, isPaid := true, paidAt := some 1, isDelivered := false,
    deliveredAt := none, isCancelled := false, cancelledAt := none,
    cancellationRefundAmount := none, items := demoItems }

/-! ## Lemmas about the stock database -/

theorem getProduct_incStock (db : StockDb) (pid x : ProductId) (q : Int) :
    getProduct (incStock db pid q) x =
      (getProduct db x).map
        (fun p => if x = pid then { p with countInStock := p.countInStock + q } else p) := by
  induction db with
  | nil => rfl
  | cons e rest ih =>
    obtain ⟨a, p⟩ := e
    by_cases hax : a = x
    · subst hax
      by_cases hap : a = pid
      · subst hap
        simp [getProduct, incStock, List.find?]
      · simp [getProduct, incStock, List.find?, hap, Ne.symm hap]
    · simp only [getProduct, incStock, List.map_cons] at ih ⊢
      rw [List.find?_cons_of_neg _ (by by_cases hap : a = pid <;> simp_all),
        List.find?_cons_of_neg _ (by simpa using hax)]
      exact ih

/-- Two increments on the same product cancel. -/
theorem incStock_incStock_cancel (db : StockDb) (pid : ProductId) (q : Int) :
    incStock (incStock db pid (-q)) pid q = db := by
  induction db with
  | nil => rfl
  | cons e rest ih =>
    obtain ⟨a, p⟩ := e
    obtain ⟨s, en, rp⟩ := p
    simp only [incStock] at ih
    by_cases hap : a = pid
    · subst hap
      simp only [incStock, List.map_cons, if_pos rfl]
      simp [ih]
    · simp only [incStock, List.map_cons, if_neg hap]
      simp [ih, incStock]

/-- The rollback of whatever `reserveItems` deducted restores the
database to the rollback of the starting accumulator: the catch-block
refund is exact. -/
theorem rollback_reserveItems (items : List OrderItem) :
    ∀ (db : StockDb) (reserved : List (ProductId × Int)),
    rollback (reserveItems db reserved items).2.1 (reserveItems db reserved items).2.2 =
      rollback db reserved := by
  induction items with
  | nil => intro db reserved; rfl
  | cons item rest ih =>
    intro db reserved
    simp only [reserveItems]
    cases hp : getProduct db item.product with
    | none => rfl
    | some p =>
      simp only [condDecStock, hp]
      by_cases hs : p.isStockEnabled
      · by_cases hq : item.qty ≤ p.countInStock
        · simp only [hs, if_true, hq, if_true]
          rw [ih]
          show rollback (incStock (incStock db item.product (-item.qty)) item.product item.qty)
            reserved = rollback db reserved
          rw [incStock_incStock_cancel]
        · simp [hs, hq]
      · simp only [hs, if_false]
        exact ih db reserved

/-- An `insufficientStock` error from `reserveItems` names an item of
the list. -/
theorem reserveItems_insufficient_names (items : List OrderItem) :
    ∀ (db : StockDb) (reserved : List (ProductId × Int)) (n : String),
    (reserveItems db reserved items).1 = .error (.insufficientStock n) →
    ∃ item ∈ items, item.name = n := by
  induction items with
  | nil => intro db reserved n h; exact absurd h (by simp [reserveItems])
  | cons item rest ih =>
    intro db reserved n h
    simp only [reserveItems] at h
    cases hp : getProduct db item.product with
    | none =>
      rw [hp] at h
      simp at h
    | some p =>
      rw [hp] at h
      simp only [condDecStock, hp] at h
      by_cases hs : p.isStockEnabled
      · by_cases hq : item.qty ≤ p.countInStock
        · simp only [hs, if_true, hq, if_true] at h
          obtain ⟨it, hit, hn⟩ := ih _ _ _ h
          exact ⟨it, List.mem_cons_of_mem _ hit, hn⟩
        · simp only [hs, if_true, hq, if_false] at h
          simp at h
          exact ⟨item, List.mem_cons_self _ _, h⟩
      · simp only [hs, if_false] at h
        obtain ⟨it, hit, hn⟩ := ih _ _ _ h
        exact ⟨it, List.mem_cons_of_mem _ hit, hn⟩

/-- `incStock` does not change the set of product ids. -/
theorem incStock_map_fst (db : StockDb) (pid : ProductId) (q : Int) :
    (incStock db pid q).map Prod.fst = db.map Prod.fst := by
  simp only [incStock, List.map_map]
  refine List.map_congr_left (fun e _ => ?_)
  by_cases h : e.1 = pid <;> simp [h]

/-- In a collection with no duplicate ids, `Product.findById` on a
member's id returns exactly that member. -/
theorem getProduct_of_mem_nodup (db : StockDb) (e0 : ProductId × Product)
    (hmem : e0 ∈ db) (hnd : (db.map Prod.fst).Nodup) :
    getProduct db e0.1 = some e0.2 := by
  induction db with
  | nil => cases hmem
  | cons a l ih =>
    simp only [List.map_cons, List.nodup_cons] at hnd
    rcases List.mem_cons.mp hmem with he | he
    · subst he
      simp [getProduct, List.find?]
    · by_cases hk : a.1 = e0.1
      · exfalso
        apply hnd.1
        rw [hk]
        exact List.mem_map_of_mem Prod.fst he
      · simp only [getProduct] at ih ⊢
        rw [List.find?_cons_of_neg _ (by simpa using hk)]
        exact ih he hnd.2

/-- A successful `reserveLine` preserves non-negativity of every stock
counter (the conditional decrement only fires when the counter is at
least the reserved quantity). -/
theorem reserveLine_nonneg (db : StockDb) (pid : ProductId) (qty : Int) (db' : StockDb)
    (hnd : (db.map Prod.fst).Nodup) (hnn : nonNegStock db)
    (h : reserveLine db pid qty = some db') : nonNegStock db' := by
  unfold reserveLine at h
  cases hp : getProduct db pid with
  | none => rw [hp] at h; cases h
  | some p =>
    rw [hp] at h
    dsimp only at h
    by_cases hs : p.isStockEnabled
    · rw [if_pos hs] at h
      unfold condDecStock at h
      rw [hp] at h
      dsimp only at h
      by_cases hq : qty ≤ p.countInStock
      · rw [if_pos hq] at h
        injection h with h
        subst h
        intro e he
        simp only [incStock] at he
        obtain ⟨e0, he0, rfl⟩ := List.mem_map.mp he
        by_cases hk : e0.1 = pid
        · have hgp := getProduct_of_mem_nodup db e0 he0 hnd
          rw [hk, hp] at hgp
          injection hgp with hgp
          rw [if_pos hk]
          simp only
          rw [hgp] at hq
          omega
        · rw [if_neg hk]
          exact hnn e0 he0
      · rw [if_neg hq] at h; cases h
    · rw [if_neg hs] at h
      injection h with h
      subst h
      exact hnn

/-- A successful `reserveLine` does not change the set of product ids. -/
theorem reserveLine_map_fst (db : StockDb) (pid : ProductId) (qty : Int) (db' : StockDb)
    (h : reserveLine db pid qty = some db') :
    db'.map Prod.fst = db.map Prod.fst := by
  unfold reserveLine at h
  cases hp : getProduct db pid with
  | none => rw [hp] at h; cases h
  | some p =>
    rw [hp] at h
    dsimp only at h
    by_cases hs : p.isStockEnabled
    · rw [if_pos hs] at h
      unfold condDecStock at h
      rw [hp] at h
      dsimp only at h
      by_cases hq : qty ≤ p.countInStock
      · rw [if_pos hq] at h
        injection h with h
        subst h
        exact incStock_map_fst db pid (-qty)
      · rw [if_neg hq] at h; cases h
    · rw [if_neg hs] at h
      injection h with h
      subst h
      rfl

/-- Any serialized sequence of atomic reservation attempts preserves
non-negativity of every stock counter. -/
theorem applyReserves_nonneg (ops : List (ProductId × Int)) :
    ∀ db : StockDb, (db.map Prod.fst).Nodup → nonNegStock db →
      nonNegStock (applyReserves db ops) := by
  induction ops with
  | nil => intro db _ h; exact h
  | cons op rest ih =>
    intro db hnd hnn
    obtain ⟨pid, qty⟩ := op
    simp only [applyReserves]
    cases hr : reserveLine db pid qty with
    | none => exact ih db hnd hnn
    | some db' =>
      exact ih db' (by rw [reserveLine_map_fst db pid qty db' hr]; exact hnd)
        (reserveLine_nonneg db pid qty db' hnd hnn hr)

/-! ## Claim theorems: order creation and reservation -/

/-- **C1**: order creation is all-or-nothing.  Whenever `addOrderItems`
fails — a line's stock reservation fails, a product is missing, or the
order save fails — every stock deduction already applied in the attempt
is rolled back (the final collection equals the initial one exactly),
no order document is persisted, and an insufficient-stock failure
carries the name of an item of the order. -/
theorem claim_C1_addOrderItems_all_or_nothing (saveOk : Bool) (items : List OrderItem)
    (db : StockDb) (e : CreateError)
    (h : (addOrderItems saveOk items db).1 = .error e) :
    (addOrderItems saveOk items db).2.1 = db ∧
    (addOrderItems saveOk items db).2.2 = [] ∧
    ∀ n, e = .insufficientStock n → ∃ item ∈ items, item.name = n := by
  have hrb := rollback_reserveItems items db []
  have hnames := reserveItems_insufficient_names items db []
  unfold addOrderItems at h ⊢
  by_cases h0 : items.length = 0
  · rw [if_pos h0] at h ⊢
    refine ⟨rfl, rfl, fun n hn => ?_⟩
    dsimp only at h
    injection h with h
    subst h
    cases hn
  · rw [if_neg h0] at h ⊢
    rcases hR : reserveItems db [] items with ⟨r, db1, res⟩
    rw [hR] at h hrb hnames
    cases r with
    | error e' =>
      dsimp only at h hrb hnames ⊢
      injection h with h
      subst h
      refine ⟨hrb, rfl, fun n hn => ?_⟩
      exact hnames n (by rw [hn])
    | ok u =>
      dsimp only at h hrb ⊢
      by_cases hs : saveOk
      · simp only [hs, if_true] at h
        cases h
      · simp only [hs, if_false] at h ⊢
        injection h with h
        subst h
        exact ⟨hrb, rfl, fun n hn => by cases hn⟩

/-- Witness for C1: a checkout whose second line exceeds the stock
leaves the collection untouched and persists no order. -/
theorem claim_C1_witness :
    (addOrderItems true demoItems demoDb).2.1 = demoDb ∧
    (addOrderItems true demoItems demoDb).2.2 = [] ∧
    ∀ n, CreateError.insufficientStock "Hat" = .insufficientStock n →
      ∃ item ∈ demoItems, item.name = n :=
  claim_C1_addOrderItems_all_or_nothing true demoItems demoDb
    (.insufficientStock "Hat") rfl

/-- **C2**: a single line reservation succeeds unconditionally and
leaves the counter untouched when `isStockEnabled` is false; otherwise
it succeeds iff the current counter is at least the quantity, in which
case the counter is decremented by exactly that quantity as one
conditional step; consequently no serialization of atomic reservation
attempts can drive any stock counter negative. -/
theorem claim_C2_reserveLine_conditional (db : StockDb) (pid : ProductId) (qty : Int)
    (p : Product) (hp : getProduct db pid = some p) :
    (p.isStockEnabled = false → reserveLine db pid qty = some db) ∧
    (p.isStockEnabled = true →
      ((reserveLine db pid qty).isSome ↔ qty ≤ p.countInStock) ∧
      (qty ≤ p.countInStock →
        reserveLine db pid qty = some (incStock db pid (-qty)) ∧
        getStock (incStock db pid (-qty)) pid = some (p.countInStock - qty))) ∧
    ((db.map Prod.fst).Nodup → nonNegStock db →
      ∀ ops, nonNegStock (applyReserves db ops)) := by
  refine ⟨fun hs => ?_, fun hs => ⟨?_, fun hq => ⟨?_, ?_⟩⟩, fun hnd hnn ops => ?_⟩
  · unfold reserveLine
    rw [hp]
    dsimp only
    rw [if_neg (by rw [hs]; exact Bool.false_ne_true)]
  · unfold reserveLine condDecStock
    rw [hp]
    dsimp only
    rw [if_pos hs]
    by_cases hq : qty ≤ p.countInStock
    · simp [hq]
    · simp [hq]
  · unfold reserveLine condDecStock
    rw [hp]
    dsimp only
    rw [if_pos hs, if_pos hq]
  · rw [getStock, getProduct_incStock, hp]
    simp only [Option.map_some, if_pos rfl]
    rfl
  · exact applyReserves_nonneg ops db hnd hnn

/-- Witness for C2: reserving 3 units of product 1 (stock 5) in the
demo collection performs the conditional decrement, leaving 5 − 3. -/
theorem claim_C2_witness :
    reserveLine demoDb 1 3 = some (incStock demoDb 1 (-3)) ∧
    getStock (incStock demoDb 1 (-3)) 1 = some (5 - 3) :=
  ((claim_C2_reserveLine_conditional demoDb 1 3 ⟨5, true, none⟩ rfl).2.1 rfl).2
    (by decide)

/-! ## Lemmas about the eligibility computation -/

/-- The eligibility flag is the conjunction of the five conditions. -/
theorem returnEligibility_fst (c : LineCtx) :
    (returnEligibility c).1 =
      (passGlobal c && passDelivered c && passReturnable c && passWindow c &&
        passNoActive c) := by
  unfold returnEligibility passGlobal passDelivered passReturnable passWindow passNoActive
  rcases hd : c.deliveredAt with _ | t <;> rcases hp : c.product with _ | p <;>
    dsimp only <;> split_ifs <;>
    simp_all [Product.effWindowDays, Product.effPolicy, Product.effReturnable] <;> omega

set_option maxHeartbeats 1600000 in
/-- The reason list contains exactly the reason of every failing
condition, in check order. -/
theorem returnEligibility_snd (c : LineCtx) :
    (returnEligibility c).2 =
      (if passGlobal c then [] else ["Returns are currently disabled for the store."]) ++
      (if passDelivered c then [] else ["Item is not yet delivered."]) ++
      (if passReturnable c then [] else ["This item is marked as non-returnable."]) ++
      (match c.deliveredAt, c.product with
        | some t, some p =>
          if passWindow c then []
          else ["Return window expired on " ++ toString (t + p.effWindowDays * dayMs) ++ "."]
        | _, _ => []) ++
      (if passNoActive c then []
        else ["Return already " ++ (c.returnStatus.getD .NONE).lower ++ "."]) := by
  unfold returnEligibility passGlobal passDelivered passReturnable passWindow passNoActive
  rcases hd : c.deliveredAt with _ | t <;> rcases hp : c.product with _ | p <;>
    dsimp only <;> split_ifs <;>
    simp_all [Product.effWindowDays, Product.effPolicy, Product.effReturnable] <;> omega

/-- With the product present and a delivery timestamp recorded, the
write-time validation of `requestReturn` accepts exactly when the
eligibility computation reports the line eligible. -/
theorem requestReturnValidate_iff_eligible (c : LineCtx) (p : Product) (t : Int)
    (hp : c.product = some p) (ht : c.deliveredAt = some t) :
    (requestReturnValidate c = .ok () ↔ (returnEligibility c).1 = true) := by
  rw [returnEligibility_fst]
  unfold requestReturnValidate passGlobal passDelivered passReturnable passWindow passNoActive
  rw [hp, ht]
  rcases hs : c.settingsDoc with _ | b
  · dsimp only
    split_ifs <;> simp_all <;> omega
  · dsimp only
    split_ifs <;> simp_all <;> omega

/-- With `deliveredAt` absent the eligibility computation always
reports the line ineligible (check 1 requires both the flag and the
timestamp). -/
theorem returnEligibility_false_of_noTimestamp (c : LineCtx)
    (ht : c.deliveredAt = none) : (returnEligibility c).1 = false := by
  rw [returnEligibility_fst]
  unfold passDelivered
  rw [ht]
  simp

/-- With the product present, the delivered flag set but no delivery
timestamp, the write-time validation of `requestReturn` can never fail
the window check (its comparison against `NaN` is false), and it
accepts exactly when the remaining conditions hold. -/
theorem requestReturnValidate_noTimestamp (c : LineCtx) (p : Product)
    (hp : c.product = some p) (hd : c.isDelivered = true) (ht : c.deliveredAt = none) :
    requestReturnValidate c ≠ .error .windowExpired ∧
    (requestReturnValidate c = .ok () ↔
      (c.settingsDoc ≠ some false ∧ p.effReturnable = true ∧
       (c.returnStatus.getD .NONE = RetStatus.NONE ∨
        c.returnStatus.getD .NONE = RetStatus.REJECTED))) := by
  unfold requestReturnValidate
  rw [hp, hd, ht]
  dsimp only
  rcases hs : c.settingsDoc with _ | b
  · split_ifs <;> simp_all
  · cases b <;> split_ifs <;> simp_all

/-! ## Claim theorems: return eligibility -/

/-- **C3**: with the product present and a delivery timestamp recorded,
a line is reported return-eligible iff the global returns toggle is on,
the order is delivered, the product's policy marks it returnable
(default returnable), the current time is at most
`deliveredAt + returnWindowDays` (default 7 days, boundary inclusive),
and the line's current return status is NONE or REJECTED. -/
theorem claim_C3_eligibility_iff (c : LineCtx) (p : Product) (t : Int)
    (hp : c.product = some p) (ht : c.deliveredAt = some t) :
    ((returnEligibility c).1 = true ↔
      (c.settingsDoc.getD true = true ∧ c.isDelivered = true ∧
       p.effReturnable = true ∧
       c.now ≤ t + p.effWindowDays * dayMs ∧
       (c.returnStatus.getD .NONE = RetStatus.NONE ∨
        c.returnStatus.getD .NONE = RetStatus.REJECTED))) := by
  rw [returnEligibility_fst]
  unfold passGlobal passDelivered passReturnable passWindow passNoActive
  rw [hp, ht]
  simp [Bool.and_eq_true, decide_eq_true_iff]
  tauto

/-- Witness for C3: at exactly the 7-day boundary the line is still
eligible. -/
theorem claim_C3_witness : (returnEligibility boundaryCtx).1 = true :=
  (claim_C3_eligibility_iff boundaryCtx defProduct 0 rfl rfl).mpr (by decide)

/-- Counterexample for C4 as stated, in two parts.  First: for an
undelivered line the eligibility computation reports the reason "Item
is not yet delivered.", while request creation rejects with the
differently worded single message "Order not delivered yet.", which is
not even an element of the eligibility reason list — the rejection does
not carry the eligibility computation's reason set.  Second: request
creation does not re-validate the same predicate either — for a line
whose order has `isDelivered` set but no `deliveredAt`, the eligibility
computation reports the line ineligible while request creation accepts
it. -/
theorem claim_C4_counterexample :
    requestReturnValidate undeliveredCtx = .error .notDelivered ∧
    (returnEligibility undeliveredCtx).2 = ["Item is not yet delivered."] ∧
    ReqFail.notDelivered.message ∉ (returnEligibility undeliveredCtx).2 ∧
    requestReturnValidate noTimestampCtx = .ok () ∧
    (returnEligibility noTimestampCtx).1 = false :=
  ⟨rfl, by decide, by decide, rfl, by decide⟩

set_option maxHeartbeats 1600000 in
/-- **C4** (amended): every failing eligibility condition is surfaced
as its human-readable reason — all of them, in check order — and a line
is eligible iff the reason list is empty.  Return-request creation
re-validates equivalent conditions synchronously at write time: when
the product exists and a delivery timestamp is recorded it accepts
exactly when the eligibility computation reports the line eligible, but
on failure it rejects with a single error message describing the first
failing condition (worded differently from the eligibility reasons),
not with the eligibility computation's reason set; and when the order
is marked delivered without a delivery timestamp the two predicates
diverge — the eligibility computation reports the line ineligible while
request creation accepts it whenever returns are enabled, the item is
returnable and the line has no active return. -/
theorem claim_C4_reasons_and_revalidation (c : LineCtx) :
    ((returnEligibility c).1 = true ↔ (returnEligibility c).2 = []) ∧
    ((returnEligibility c).2 =
      (if passGlobal c then [] else ["Returns are currently disabled for the store."]) ++
      (if passDelivered c then [] else ["Item is not yet delivered."]) ++
      (if passReturnable c then [] else ["This item is marked as non-returnable."]) ++
      (match c.deliveredAt, c.product with
        | some t, some p =>
          if passWindow c then []
          else ["Return window expired on " ++ toString (t + p.effWindowDays * dayMs) ++ "."]
        | _, _ => []) ++
      (if passNoActive c then []
        else ["Return already " ++ (c.returnStatus.getD .NONE).lower ++ "."])) ∧
    (∀ p t, c.product = some p → c.deliveredAt = some t →
      (requestReturnValidate c = .ok () ↔ (returnEligibility c).1 = true)) ∧
    (∀ p, c.product = some p → c.isDelivered = true → c.deliveredAt = none →
      (returnEligibility c).1 = false ∧
      (c.settingsDoc ≠ some false → p.effReturnable = true →
        (c.returnStatus.getD .NONE = RetStatus.NONE ∨
         c.returnStatus.getD .NONE = RetStatus.REJECTED) →
        requestReturnValidate c = .ok ())) := by
  refine ⟨?_, returnEligibility_snd c,
    fun p t hp ht => requestReturnValidate_iff_eligible c p t hp ht,
    fun p hp hd ht => ⟨returnEligibility_false_of_noTimestamp c ht,
      fun hs hr hn =>
        (requestReturnValidate_noTimestamp c p hp hd ht).2.mpr ⟨hs, hr, hn⟩⟩⟩
  rw [returnEligibility_fst, returnEligibility_snd]
  rcases hdl : c.deliveredAt with _ | t <;> rcases hpr : c.product with _ | p <;>
    cases hg : passGlobal c <;> cases hd2 : passDelivered c <;>
    cases hr : passReturnable c <;> cases hw : passWindow c <;>
    cases hna : passNoActive c <;> simp_all [passWindow]

/-- Witness for C4: at the boundary context the write-time validation
accepts exactly when the eligibility computation reports eligible. -/
theorem claim_C4_witness :
    requestReturnValidate boundaryCtx = .ok () ↔
      (returnEligibility boundaryCtx).1 = true :=
  (claim_C4_reasons_and_revalidation boundaryCtx).2.2.1 defProduct 0 rfl rfl

/-- **C10**: when `isDelivered` is true but `deliveredAt` is absent,
the write-time validation of `requestReturn` can never fail the
return-window check (the comparison against `NaN` is false), so it
accepts exactly when the remaining conditions hold: returns not
globally disabled, product returnable, no active return on the line. -/
theorem claim_C10_missing_deliveredAt (c : LineCtx) (p : Product)
    (hp : c.product = some p) (hd : c.isDelivered = true) (ht : c.deliveredAt = none) :
    requestReturnValidate c ≠ .error .windowExpired ∧
    (requestReturnValidate c = .ok () ↔
      (c.settingsDoc ≠ some false ∧ p.effReturnable = true ∧
       (c.returnStatus.getD .NONE = RetStatus.NONE ∨
        c.returnStatus.getD .NONE = RetStatus.REJECTED))) :=
  requestReturnValidate_noTimestamp c p hp hd ht

/-! ## Lemmas about restocking -/

/-- Pointwise effect of an unconditional increment on the stock view. -/
theorem getStock_incStock (db : StockDb) (pid x : ProductId) (q : Int) :
    getStock (incStock db pid q) x =
      if x = pid then (getStock db x).map (· + q) else getStock db x := by
  unfold getStock
  rw [getProduct_incStock]
  by_cases h : x = pid <;> cases hg : getProduct db x <;> simp [h, hg]

/-- A restocking pass adds to each product exactly the total quantity
the list carries for it. -/
theorem getStock_rollback (l : List (ProductId × Int)) :
    ∀ (db : StockDb) (pid : ProductId),
      getStock (rollback db l) pid = (getStock db pid).map (· + pendingQty l pid) := by
  induction l with
  | nil =>
    intro db pid
    show getStock db pid = _
    cases hg : getStock db pid <;> simp [pendingQty, hg]
  | cons e l ih =>
    intro db pid
    show getStock (rollback (incStock db e.1 e.2) l) pid = _
    rw [ih, getStock_incStock]
    by_cases h : pid = e.1
    · rw [if_pos h]
      cases hg : getStock db pid <;>
        simp [pendingQty, List.filter_cons, h.symm, hg]
      omega
    · rw [if_neg h]
      have h' : ¬(e.1 = pid) := fun hh => h hh.symm
      cases hg : getStock db pid <;>
        simp [pendingQty, List.filter_cons, h', hg]

/-! ## Claim theorems: return transitions, approval gate, order status -/

/-- Counterexample for C5 as stated: a non-privileged actor requesting
the PICKED_UP transition is not intercepted — the direct mutation runs,
the ReturnRequest's status changes, and no ApprovalRequest is
created. -/
theorem claim_C5_counterexample :
    (updateReturnStatus "admin" pickedUpPayload false retState0).1 = .mutated ∧
    (updateReturnStatus "admin" pickedUpPayload false retState0).2.1.req.status =
      RetStatus.PICKED_UP ∧
    retState0.req.status = RetStatus.PICKUP_SCHEDULED ∧
    (updateReturnStatus "admin" pickedUpPayload false retState0).2.2 = [] := by
  decide

/-- **C5** (amended): for a transition into one of the five gated
statuses (APPROVED, REFUNDED, REJECTED, REPLACED, COMPLETED) requested
by an actor without top privilege, the ReturnRequest and every other
part of the state are left completely unchanged: if a PENDING
ApprovalRequest already exists for the return the call fails with
Conflict, otherwise exactly one new PENDING ApprovalRequest carrying
the payload verbatim is persisted and an accepted-pending-approval
result is returned.  Transitions into the remaining statuses are not
intercepted and run the direct mutation. -/
theorem claim_C5_gated_transitions (role : String) (p : Payload) (pending : Bool)
    (s : RetState) (hrole : role ≠ "super_admin") (hst : p.status ∈ gatedStatuses) :
    (pending = true → updateReturnStatus role p pending s = (.conflict, s, [])) ∧
    (pending = false → updateReturnStatus role p pending s = (.accepted, s, [p])) := by
  unfold updateReturnStatus
  rw [if_pos ⟨hrole, hst⟩]
  exact ⟨fun h => by rw [h]; rfl, fun h => by rw [h]; rfl⟩

/-- Witness for C5: a plain admin requesting a refund transition gets
202 with one PENDING approval carrying the payload, or Conflict when
one is already pending. -/
theorem claim_C5_witness :
    (false = true → updateReturnStatus "admin" refundPayload false retState0 =
      (.conflict, retState0, [])) ∧
    (false = false → updateReturnStatus "admin" refundPayload false retState0 =
      (.accepted, retState0, [refundPayload])) :=
  claim_C5_gated_transitions "admin" refundPayload false retState0
    (by decide) (by decide)

/-- Counterexample for C6 as stated: approving a stored REFUNDED
payload creates no REFUND FinancialRecord, while the top-privilege
actor's direct call with the same payload creates one; the replay also
sends no approval e-mail. -/
theorem claim_C6_counterexample :
    (updateReturnStatusDirect refundPayload retState0).finRecords = 1 ∧
    (approveReturnReplay refundPayload retState0).finRecords = 0 ∧
    (updateReturnStatusDirect ⟨.APPROVED, none, none, false⟩ retState0).emails = 1 ∧
    (approveReturnReplay ⟨.APPROVED, none, none, false⟩ retState0).emails = 0 := by
  decide

/-- **C6** (amended): approving a PENDING approval re-reads the stored
payload and produces exactly the direct path's effect on the
ReturnRequest's status, adminNote, refundAmount and history statuses,
on the order line mirror, on the inventory counter and on the audit
action tags — but it creates no REFUND FinancialRecord and sends no
approval e-mail (and its history entry carries a resolution note). -/
theorem claim_C6_replay_vs_direct (p : Payload) (s : RetState) :
    (approveReturnReplay p s).req.status = (updateReturnStatusDirect p s).req.status ∧
    (approveReturnReplay p s).req.adminNote =
      (updateReturnStatusDirect p s).req.adminNote ∧
    (approveReturnReplay p s).req.refundAmount =
      (updateReturnStatusDirect p s).req.refundAmount ∧
    (approveReturnReplay p s).req.history.map Prod.fst =
      (updateReturnStatusDirect p s).req.history.map Prod.fst ∧
    (approveReturnReplay p s).itemStatus = (updateReturnStatusDirect p s).itemStatus ∧
    (approveReturnReplay p s).stock = (updateReturnStatusDirect p s).stock ∧
    (approveReturnReplay p s).audits = (updateReturnStatusDirect p s).audits ∧
    (approveReturnReplay p s).finRecords = s.finRecords ∧
    (approveReturnReplay p s).emails = s.emails := by
  unfold approveReturnReplay updateReturnStatusDirect
  simp

/-- **C9**: the direct path transitioning a return into REFUNDED with
`restoreInventory = true` adds the line quantity back to the product's
stock, emits the dedicated INVENTORY_RESTORED audit event followed by
the RETURN_REFUNDED status-change event, and creates exactly one REFUND
FinancialRecord. -/
theorem claim_C9_refund_restock (p : Payload) (s : RetState)
    (hst : p.status = RetStatus.REFUNDED) (hri : p.restoreInventory = true) :
    (updateReturnStatusDirect p s).stock = s.stock + s.qty ∧
    (updateReturnStatusDirect p s).audits =
      s.audits ++ ["INVENTORY_RESTORED", "RETURN_REFUNDED"] ∧
    (updateReturnStatusDirect p s).finRecords = s.finRecords + 1 ∧
    (updateReturnStatusDirect p s).req.status = RetStatus.REFUNDED ∧
    (updateReturnStatusDirect p s).itemStatus = RetStatus.REFUNDED := by
  unfold updateReturnStatusDirect
  simp [hst, hri, RetStatus.tag]

/-- Witness for C9: refunding the demo return with restoration restocks
1 unit onto stock 3 and creates the single REFUND record. -/
theorem claim_C9_witness :
    (updateReturnStatusDirect refundPayload retState0).stock =
      retState0.stock + retState0.qty ∧
    (updateReturnStatusDirect refundPayload retState0).audits =
      retState0.audits ++ ["INVENTORY_RESTORED", "RETURN_REFUNDED"] ∧
    (updateReturnStatusDirect refundPayload retState0).finRecords =
      retState0.finRecords + 1 ∧
    (updateReturnStatusDirect refundPayload retState0).req.status =
      RetStatus.REFUNDED ∧
    (updateReturnStatusDirect refundPayload retState0).itemStatus =
      RetStatus.REFUNDED :=
  claim_C9_refund_restock refundPayload retState0 rfl rfl

/-- Counterexample for C7 as stated: a second mark-delivered call on an
already-delivered order is not rejected — it succeeds and overwrites
`deliveredAt`. -/
theorem claim_C7_counterexample :
    deliveredOrder.isDelivered = true ∧
    deliveredOrder.deliveredAt = some 5 ∧
    updateOrderToDelivered 9 deliveredOrder =
      .ok ({ deliveredOrder with
          isDelivered := true
          status := .DELIVERED
          deliveredAt := some 9 }, ["STATUS_UPDATE"]) :=
  ⟨rfl, rfl, rfl⟩

/-- **C7** (amended): marking PAID sets the legacy flag and timestamp
exactly once — a second call is rejected as a conflict leaving the
order unchanged — but marking DELIVERED performs no such check: every
call succeeds and overwrites the flag, status and timestamp. -/
theorem claim_C7_marking (now : Int) (o : OrderDoc) :
    (o.isPaid = true →
      updateOrderToPaid now o = .error "Order is already marked as paid") ∧
    (o.isPaid = false → updateOrderToPaid now o =
      .ok ({ o with isPaid := true, status := .PAID, paidAt := some now },
        ["PAYMENT_RECEIVED"])) ∧
    updateOrderToDelivered now o =
      .ok ({ o with isDelivered := true, status := .DELIVERED, deliveredAt := some now },
        ["STATUS_UPDATE"]) := by
  refine ⟨fun h => ?_, fun h => ?_, rfl⟩ <;> unfold updateOrderToPaid <;> simp [h]

/-- Witness for C7: re-paying the already-paid demo order is rejected. -/
theorem claim_C7_witness :
    updateOrderToPaid 9 deliveredOrder = .error "Order is already marked as paid" :=
  (claim_C7_marking 9 deliveredOrder).1 rfl

/-- Counterexample for C8 as stated: the admin status-update path sets
CANCELLED on a delivered order and releases no stock. -/
theorem claim_C8_counterexample :
    deliveredOrder.isDelivered = true ∧
    (updateOrderStatusAdmin 9 .CANCELLED deliveredOrder demoDb).1.status =
      OStatus.CANCELLED ∧
    (updateOrderStatusAdmin 9 .CANCELLED deliveredOrder demoDb).2.1 = demoDb := by
  decide

/-- **C8** (amended): the dedicated cancel operation only cancels
undelivered, not-yet-cancelled orders: it sets the CANCELLED status,
flag and timestamp, logs ORDER_CANCELLED (the free-text reason goes to
the audit note) and restores every line item's quantity; the
`cancellation.refundAmount` field is not written.  The admin
status-update path, however, can enter CANCELLED regardless of
`isDelivered` and releases no stock. -/
theorem claim_C8_cancellation (now : Int) (o : OrderDoc) (db : StockDb) :
    (o.isDelivered = true → cancelOrder now o db =
      .error "Cannot cancel an order that has been shipped or delivered") ∧
    (o.isDelivered = false → o.isCancelled = true →
      cancelOrder now o db = .error "Order is already cancelled") ∧
    (o.isDelivered = false → o.isCancelled = false →
      cancelOrder now o db = .ok
        ({ o with isCancelled := true, status := .CANCELLED, cancelledAt := some now },
         rollback db (o.items.map fun it => (it.product, it.qty)),
         ["ORDER_CANCELLED"]) ∧
      (∀ pid, getStock (rollback db (o.items.map fun it => (it.product, it.qty))) pid =
        (getStock db pid).map
          (· + pendingQty (o.items.map fun it => (it.product, it.qty)) pid))) ∧
    ((updateOrderStatusAdmin now OStatus.CANCELLED o db).1.status =
      OStatus.CANCELLED ∧
     (updateOrderStatusAdmin now OStatus.CANCELLED o db).2.1 = db) := by
  refine ⟨fun h => ?_, fun h1 h2 => ?_, fun h1 h2 =>
    ⟨?_, fun pid => getStock_rollback _ db pid⟩, ?_, ?_⟩
  · simp [cancelOrder, h]
  · simp [cancelOrder, h1, h2]
  · simp [cancelOrder, h1, h2]
  · simp [updateOrderStatusAdmin]
  · simp [updateOrderStatusAdmin]

/-- Witness for C8: canceling the delivered demo order through the
dedicated path is rejected. -/
theorem claim_C8_witness :
    cancelOrder 9 deliveredOrder demoDb =
      .error "Cannot cancel an order that has been shipped or delivered" :=
  (claim_C8_cancellation 9 deliveredOrder demoDb).1 rfl

/-- Witness for C10: with the delivery flag set, no timestamp, and the
clock far beyond any window, the request is accepted. -/
theorem claim_C10_witness :
    requestReturnValidate noTimestampCtx ≠ .error .windowExpired ∧
    (requestReturnValidate noTimestampCtx = .ok () ↔
      (noTimestampCtx.settingsDoc ≠ some false ∧ defProduct.effReturnable = true ∧
       (noTimestampCtx.returnStatus.getD .NONE = RetStatus.NONE ∨
        noTimestampCtx.returnStatus.getD .NONE = RetStatus.REJECTED))) :=
  claim_C10_missing_deliveredAt noTimestampCtx defProduct rfl rfl rfl

end Barlina
